import Mathlib

/-
Shallow embedding of src/src/components/notion/NotionBlockRenderer.tsx.

The component renders a tree of Notion blocks into markup.  JavaScript
semantics relevant to the embedding:
  * reading a property of `undefined` throws, so fallible accesses are
    modelled with `Option`, and a render that throws is modelled as `none`;
  * reading an absent property of an object yields `undefined` (no throw),
    modelled by `Option`-valued fields;
  * the dynamic payload `block[block.type]` is modelled by `Block`'s
    `value` field (its non-recursive fields) together with `valueChildren`
    (the payload's `children` list); the literal `table_row` and `children`
    keys of the block object are modelled by the `tableRow` and
    `blockChildren` fields.
-/

/-- The annotation set carried by every rich text run
(`annotations` in the source). -/
structure Annots where
  bold : Bool
  italic : Bool
  strikethrough : Bool
  underline : Bool
  code : Bool
  color : String
deriving Repr, DecidableEq

/-- The `text` variant payload of a rich text run (`content` plus the
optional link url). -/
structure TextContent where
  content : String
  link : Option String
deriving Repr, DecidableEq

/-- One inline rich text run (`RichTextItemResponse` in the source). -/
structure RichTextItemResponse where
  type : String
  text : Option TextContent
  equation : Option String
  annots : Annots
  plain_text : String
  href : Option String
deriving Repr, DecidableEq

/-- A callout icon: `{ type, emoji? }`. -/
structure Icon where
  type : String
  emoji : Option String
deriving Repr, DecidableEq

/-- The `size` object read by the image case (`value.size.width` /
`value.size.height`). -/
structure MediaSize where
  width : Nat
  height : Nat
deriving Repr, DecidableEq

/-- The non-recursive fields of the dynamic payload `block[block.type]`.
`external` and `file` hold the nested `.url` when the corresponding
nested object is present; an absent field is `none` (JS `undefined`). -/
structure BlockValue where
  rich_text : Option (List RichTextItemResponse)
  checked : Option Bool
  title : Option String
  type : Option String
  external : Option String
  file : Option String
  caption : Option (List RichTextItemResponse)
  placeholder : Option String
  size : Option MediaSize
  language : Option String
  url : Option String
  icon : Option Icon
  expression : Option String
  table_width : Option Nat
  has_column_header : Option Bool
  has_row_header : Option Bool
deriving Repr, DecidableEq

/-- A Notion block.  `value` is `block[block.type]` (none when that key is
absent); `valueChildren` is `block[block.type].children`; `tableRow` is
`block.table_row.cells`; `blockChildren` is the literal `block.children`
key read by the `column_list` case. -/
inductive Block : Type where
  | mk (type : String) (id : String)
       (value : Option BlockValue)
       (valueChildren : Option (List Block))
       (tableRow : Option (List (List RichTextItemResponse)))
       (blockChildren : Option (List Block))

/-- The `type` discriminator of a block. -/
def Block.type : Block → String
  | Block.mk t _ _ _ _ _ => t

/-- The `id` of a block. -/
def Block.id : Block → String
  | Block.mk _ i _ _ _ _ => i

/-- The dynamic payload `block[block.type]` (non-recursive fields). -/
def Block.value : Block → Option BlockValue
  | Block.mk _ _ v _ _ _ => v

/-- The payload's `children` list. -/
def Block.valueChildren : Block → Option (List Block)
  | Block.mk _ _ _ c _ _ => c

/-- The `table_row.cells` payload of a row block (`none` when the block
carries no `table_row` key). -/
def Block.tableRow : Block → Option (List (List RichTextItemResponse))
  | Block.mk _ _ _ _ tr _ => tr

/-- The literal `children` key of the block object. -/
def Block.blockChildren : Block → Option (List Block)
  | Block.mk _ _ _ _ _ bc => bc

/-- `isTableRow` from the source: `'table_row' in block && block.table_row
!== undefined`. -/
def isTableRow (b : Block) : Bool :=
  (Block.tableRow b).isSome

/-- An emitted anchor element with the attributes the source sets on it. -/
structure Anchor where
  href : Option String
  target : Option String
  rel : Option String
  className : String
deriving Repr, DecidableEq

/-- The displayable content of an inline run: literal text, or an inline
math rendering of an equation expression. -/
inductive InlineContent : Type where
  | text (s : String)
  | math (expr : String)
deriving Repr, DecidableEq

/-- One styled inline fragment emitted by `NotionText` for one run: the
span's boolean style traits (from `clsx`), the optional inline color
style, the optional wrapping link, and the content. -/
structure InlineFragment where
  key : Nat
  bold : Bool
  code : Bool
  italic : Bool
  strikethrough : Bool
  underline : Bool
  color : Option String
  link : Option Anchor
  content : InlineContent
deriving Repr, DecidableEq

/-- The markup fragment tree produced by the renderer. -/
inductive Fragment : Type where
  | text (s : String)
  | el (tag : String) (className : String) (children : List Fragment)
  | frag (children : List Fragment)
  | inline (runs : List InlineFragment)
  | anchor (a : Anchor) (children : List Fragment)
  | image (src : String) (alt : Option String) (blurDataURL : Option String)
          (width : Nat) (height : Nat) (className : String)
  | checkbox (id : String) (defaultChecked : Option Bool) (className : String)
  | quote (q : String)
  | blockMath (expr : Option String)
  | table (header : Option (List (List InlineFragment)))
          (body : List (List (List InlineFragment)))

/-- The className the source puts on inline links inside `NotionText`. -/
def notionLinkClass : String := "text-blue-600 hover:underline dark:text-blue-400"

/-- The body of `NotionText`'s `textItems.map` callback for one run at a
given positional index. -/
def renderRichTextItem (index : Nat) (textItem : RichTextItemResponse) : InlineFragment :=
  let a := textItem.annots
  { key := index
    bold := a.bold
    code := a.code
    italic := a.italic
    strikethrough := a.strikethrough
    underline := a.underline
    color := if a.color ≠ "default" then some a.color else none
    link :=
      match textItem.href with
      | some h => if h = "" then none else
          some { href := some h, target := none, rel := none, className := notionLinkClass }
      | none => none
    content :=
      if textItem.type = "equation" then
        InlineContent.math (match textItem.equation with | some e => e | none => "")
      else
        InlineContent.text textItem.plain_text }

/-- `textItems.map(...)` with positional keys. -/
def renderRichTextList (items : List RichTextItemResponse) : List InlineFragment :=
  items.enum.map (fun p => renderRichTextItem p.1 p.2)

/-- `NotionText`: `none` models the `null` render returned for an absent
`textItems`, `some` the fragment of styled spans. -/
def NotionText (textItems : Option (List RichTextItemResponse)) : Option (List InlineFragment) :=
  match textItems with
  | none => none
  | some items => some (renderRichTextList items)

/-- `<NotionText textItems={rt} />` as a child list: a `null` render
contributes nothing. -/
def ntFrag (rt : Option (List RichTextItemResponse)) : List Fragment :=
  match NotionText rt with
  | none => []
  | some runs => [Fragment.inline runs]

/-- `value.type === 'external' ? value.external.url : value.file.url`;
`none` models the throw from reading `.url` of `undefined`. -/
def mediaSrc (v : BlockValue) : Option String :=
  if v.type = some "external" then v.external else v.file

/-- `src || "/placeholder.svg"` (the empty string is the only falsy
string). -/
def imageSrc (src : String) : String :=
  if src = "" then "/placeholder.svg" else src

/-- `value.caption ? value.caption[0]?.plain_text : ''`: an absent caption
yields `''`, a present caption array yields its first run's plain text or
JS `undefined` (here `none`) when the array is empty. -/
def captionOf (c : Option (List RichTextItemResponse)) : Option String :=
  match c with
  | none => some ""
  | some rs => rs.head?.map RichTextItemResponse.plain_text

/-- JS truthiness of a possibly-undefined string. -/
def strTruthy : Option String → Bool
  | none => false
  | some s => s != ""

/-- JS template-literal coercion of a possibly-undefined string. -/
def jsStr : Option String → String
  | some s => s
  | none => "undefined"

/-- JS `String.prototype.split` with a one-character separator, over the
character list: every occurrence separates, empty pieces are kept, and
the empty string splits to `[""]`. -/
def splitCharAux (c : Char) : List Char → List Char → List (List Char)
  | [], acc => [acc.reverse]
  | x :: xs, acc =>
    if x = c then acc.reverse :: splitCharAux c xs []
    else splitCharAux c xs (x :: acc)

/-- JS `s.split(c)` for a one-character separator. -/
def splitChar (c : Char) (s : String) : List String :=
  (splitCharAux c s.toList []).map (fun l => String.mk l)

/-- The file case's display name: split the url on `/`, take the last
element, split that on `?` and take the first part. -/
def fileDisplayName (src : String) : String :=
  let splitSourceArray := splitChar '/' src
  let lastElementInArray := splitSourceArray.getLastD ""
  (splitChar '?' lastElementInArray).headD ""

/-- The table body: `children.slice(...)` mapped through the
`isTableRow(row) ? <tr>...</tr> : null` guard; a `null` contributes no
row. -/
def tableBodyRows (rows : List Block) : List (List (List InlineFragment)) :=
  rows.filterMap (fun r => (Block.tableRow r).map (fun cells => cells.map renderRichTextList))

/-- The wrapper divs around the rendered table. -/
def tableFragment (header : Option (List (List InlineFragment)))
    (body : List (List (List InlineFragment))) : Fragment :=
  Fragment.el "div" "overflow-hidden rounded-md border border-gray-200 dark:border-gray-700"
    [Fragment.el "div" "overflow-x-auto" [Fragment.table header body]]

/-- The case labels of the dispatch switch. -/
def recognizedTypes : List String :=
  ["paragraph", "heading_1", "heading_2", "heading_3", "bulleted_list",
   "numbered_list", "bulleted_list_item", "numbered_list_item", "to_do",
   "toggle", "child_page", "image", "divider", "quote", "code", "file",
   "bookmark", "callout", "equation", "table", "column_list", "column"]

/-- The `paragraph` case. -/
def paragraphFragment (v : BlockValue) : Fragment :=
  Fragment.el "p" "text-gray-800 dark:text-gray-200" (ntFrag v.rich_text)

/-- The `heading_1` case. -/
def heading1Fragment (v : BlockValue) : Fragment :=
  Fragment.el "h1" "text-3xl font-bold text-gray-900 dark:text-white" (ntFrag v.rich_text)

/-- The `heading_2` case. -/
def heading2Fragment (v : BlockValue) : Fragment :=
  Fragment.el "h2" "text-2xl font-semibold text-gray-800 dark:text-gray-100" (ntFrag v.rich_text)

/-- The `heading_3` case. -/
def heading3Fragment (v : BlockValue) : Fragment :=
  Fragment.el "h3" "text-xl font-medium text-gray-800 dark:text-gray-100" (ntFrag v.rich_text)

/-- The `bulleted_list` container around the rendered children. -/
def bulletedListFragment (fs : List Fragment) : Fragment :=
  Fragment.el "ul" "list-disc list-outside pl-5 text-gray-800 dark:text-gray-200" fs

/-- The `numbered_list` container around the rendered children. -/
def numberedListFragment (fs : List Fragment) : Fragment :=
  Fragment.el "ol" "list-decimal list-outside pl-5 text-gray-800 dark:text-gray-200" fs

/-- The `bulleted_list_item` / `numbered_list_item` case: inline text plus
the already-rendered optional children. -/
def listItemFragment (v : BlockValue) (fs : List Fragment) : Fragment :=
  Fragment.el "li" "pl-0 text-gray-800 dark:text-gray-200" (ntFrag v.rich_text ++ fs)

/-- The `to_do` case. -/
def toDoFragment (bid : String) (v : BlockValue) : Fragment :=
  Fragment.el "div" "flex items-center space-x-2 text-gray-800 dark:text-gray-200"
    [Fragment.checkbox bid v.checked "rounded border-gray-300 text-blue-600 focus:ring-blue-500 dark:border-gray-600 dark:bg-gray-700 dark:focus:ring-blue-600",
     Fragment.el "label" "" (ntFrag v.rich_text)]

/-- The `toggle` case: summary plus the already-rendered optional
children inside the collapsible div. -/
def toggleFragment (v : BlockValue) (fs : List Fragment) : Fragment :=
  Fragment.el "details" "text-gray-800 dark:text-gray-200"
    [Fragment.el "summary" "cursor-pointer" (ntFrag v.rich_text),
     Fragment.el "div" "pl-5 mt-2" fs]

/-- The `child_page` case: `{value.title}` renders nothing when the title
is absent. -/
def childPageFragment (v : BlockValue) : Fragment :=
  Fragment.el "p" "text-gray-800 dark:text-gray-200"
    (match v.title with | some t => [Fragment.text t] | none => [])

/-- The `image` case: resolve the source url and the required `size`
object, apply the `src || "/placeholder.svg"` fallback, and append a
figcaption only when the caption text is truthy. -/
def imageCase (v : BlockValue) : Option Fragment :=
  match mediaSrc v, v.size with
  | some src, some sz =>
    some (Fragment.el "figure" "my-4"
      ([Fragment.image (imageSrc src) (captionOf v.caption) v.placeholder sz.width sz.height "object-cover rounded-lg"] ++
       (if strTruthy (captionOf v.caption) then
          [Fragment.el "figcaption" "mt-2 text-sm text-center text-gray-600 dark:text-gray-400"
            [Fragment.text ((captionOf v.caption).getD "")]]
        else [])))
  | _, _ => none

/-- The `divider` case (reads no payload). -/
def dividerFragment : Fragment :=
  Fragment.el "hr" "my-4 border-gray-300 dark:border-gray-700" []

/-- The `quote` case: `value.rich_text[0].plain_text` faults when the
array is absent or empty. -/
def quoteCase (v : BlockValue) : Option Fragment :=
  match v.rich_text with
  | some rts =>
    match rts.head? with
    | some r0 => some (Fragment.quote r0.plain_text)
    | none => none
  | none => none

/-- The `code` case: first run's plain text in a `pre` tagged with the
language. -/
def codeCase (v : BlockValue) : Option Fragment :=
  match v.rich_text with
  | some rts =>
    match rts.head? with
    | some r0 => some (Fragment.el "pre"
        ("language-" ++ jsStr v.language ++ " p-4 rounded-lg bg-gray-100 dark:bg-gray-800 overflow-x-auto")
        [Fragment.el "code" "text-sm text-gray-800 dark:text-gray-200" [Fragment.text r0.plain_text]])
    | none => none
  | none => none

/-- The `file` case: resolve the source url, derive the display name, and
append a figcaption only when the caption text is truthy.  The emitted
link carries only an href and the blue className. -/
def fileCase (v : BlockValue) : Option Fragment :=
  match mediaSrc v with
  | some srcFile =>
    some (Fragment.el "figure" "my-4"
      ([Fragment.el "div" "flex items-center space-x-2 text-gray-800 dark:text-gray-200"
         [Fragment.text "📎",
          Fragment.anchor { href := some srcFile, target := none, rel := none,
                            className := "text-blue-600 hover:underline dark:text-blue-400" }
            [Fragment.text (fileDisplayName srcFile)]]] ++
       (if strTruthy (captionOf v.caption) then
          [Fragment.el "figcaption" "mt-2 text-sm text-gray-600 dark:text-gray-400"
            [Fragment.text ((captionOf v.caption).getD "")]]
        else [])))
  | none => none

/-- The `bookmark` case: the raw url as an external link with
`target="_blank"` and `rel="noopener noreferrer"`. -/
def bookmarkFragment (v : BlockValue) : Fragment :=
  Fragment.anchor { href := v.url, target := some "_blank", rel := some "noopener noreferrer",
                    className := "text-blue-600 hover:underline dark:text-blue-400" }
    (match v.url with | some u => [Fragment.text u] | none => [])

/-- The `callout` case: the optional icon div, then inline text plus the
already-rendered optional children. -/
def calloutFragment (v : BlockValue) (fs : List Fragment) : Fragment :=
  Fragment.el "div" "flex p-4 my-4 rounded-lg bg-gray-100 dark:bg-gray-800"
    ((match v.icon with
      | some ic => [Fragment.el "div" "flex-shrink-0 mr-4"
          [Fragment.text (if ic.type = "emoji" then (match ic.emoji with | some e => e | none => "") else "📌")]]
      | none => []) ++
     [Fragment.el "div" "flex-grow text-gray-800 dark:text-gray-200" (ntFrag v.rich_text ++ fs)])

/-- The `equation` case. -/
def equationFragment (v : BlockValue) : Fragment :=
  Fragment.el "div" "my-4 text-gray-800 dark:text-gray-200" [Fragment.blockMath v.expression]

/-- The `table` case: when `has_column_header` is truthy the first child
is read as `children[0].table_row.cells` with no shape check (a missing
`table_row` payload faults); the body maps `children.slice(...)` through
the `isTableRow` guard. -/
def tableCase (v : BlockValue) (cs : List Block) : Option Fragment :=
  if v.has_column_header = some true then
    match cs.head? with
    | some c0 =>
      match Block.tableRow c0 with
      | some cells => some (tableFragment (some (cells.map renderRichTextList)) (tableBodyRows (cs.drop 1)))
      | none => none
    | none => none
  else some (tableFragment none (tableBodyRows cs))

/-- The `column_list` wrapper div. -/
def columnListFragment (fs : List Fragment) : Fragment :=
  Fragment.el "div" "flex flex-col md:flex-row gap-4 my-4" fs

/-- The default arm of the switch: a visible placeholder naming the
type, except that the sentinel `"unsupported"` is replaced by a fixed
explanatory string. -/
def unsupportedFragment (ty : String) : Fragment :=
  Fragment.el "p" "text-red-600 dark:text-red-400"
    [Fragment.text ("❌ Unsupported block (" ++ (if ty = "unsupported" then "unsupported by Notion API" else ty) ++ ")")]

mutual

/-- The `NotionBlockRenderer` component: the switch over `block.type`.
`none` models a thrown render (reading a property of `undefined`). -/
def NotionBlockRenderer : Block → Option Fragment
  | Block.mk ty bid value vChildren _tr _bc =>
    if ty = "paragraph" then value.map paragraphFragment
    else if ty = "heading_1" then value.map heading1Fragment
    else if ty = "heading_2" then value.map heading2Fragment
    else if ty = "heading_3" then value.map heading3Fragment
    else if ty = "bulleted_list" then
      match value, vChildren with
      | some _, some cs => (renderBlocks cs).map bulletedListFragment
      | _, _ => none
    else if ty = "numbered_list" then
      match value, vChildren with
      | some _, some cs => (renderBlocks cs).map numberedListFragment
      | _, _ => none
    else if ty = "bulleted_list_item" ∨ ty = "numbered_list_item" then
      match value with
      | some v => (renderOptChildren vChildren).map (listItemFragment v)
      | none => none
    else if ty = "to_do" then value.map (toDoFragment bid)
    else if ty = "toggle" then
      match value with
      | some v => (renderOptChildren vChildren).map (toggleFragment v)
      | none => none
    else if ty = "child_page" then value.map childPageFragment
    else if ty = "image" then value.bind imageCase
    else if ty = "divider" then some dividerFragment
    else if ty = "quote" then value.bind quoteCase
    else if ty = "code" then value.bind codeCase
    else if ty = "file" then value.bind fileCase
    else if ty = "bookmark" then value.map bookmarkFragment
    else if ty = "callout" then
      match value with
      | some v => (renderOptChildren vChildren).map (calloutFragment v)
      | none => none
    else if ty = "equation" then value.map equationFragment
    else if ty = "table" then
      match value, vChildren with
      | some v, some cs => tableCase v cs
      | _, _ => none
    else if ty = "column_list" then
      match value with
      | some _ =>
        match vChildren with
        | some cols => (renderColumns cols).map columnListFragment
        | none => some (columnListFragment [])
      | none => none
    else if ty = "column" then
      match value with
      | some _ =>
        match vChildren with
        | some cs => (renderBlocks cs).map Fragment.frag
        | none => some (Fragment.frag [])
      | none => none
    else some (unsupportedFragment ty)

/-- `children.map(block => <NotionBlockRenderer .../>)`. -/
def renderBlocks : List Block → Option (List Fragment)
  | [] => some []
  | b :: bs =>
    match NotionBlockRenderer b, renderBlocks bs with
    | some f, some fs => some (f :: fs)
    | _, _ => none

/-- The `column_list` case's per-column divs: each column renders
`column.children?.map(...)` inside a `flex-1` div. -/
def renderColumns : List Block → Option (List Fragment)
  | [] => some []
  | Block.mk _ _ _ _ _ colChildren :: rest =>
    match (match colChildren with
           | none => some ([] : List Fragment)
           | some bs => renderBlocks bs),
          renderColumns rest with
    | some fs, some rs => some (Fragment.el "div" "flex-1" fs :: rs)
    | _, _ => none

/-- `value.children?.map(...)`: an absent children list renders nothing. -/
def renderOptChildren : Option (List Block) → Option (List Fragment)
  | none => some []
  | some cs => renderBlocks cs

end

/-- The text of the link in a rendered file figure. -/
def fileLinkText : Fragment → Option String
  | Fragment.el "figure" _ (Fragment.el "div" _ [_, Fragment.anchor _ [Fragment.text t]] :: _) => some t
  | _ => none

/-- The media source url of a rendered image figure. -/
def imageSrcOfFragment : Fragment → Option String
  | Fragment.el "figure" _ (Fragment.image src _ _ _ _ _ :: _) => some src
  | _ => none

/-- A payload with every field absent, for building concrete blocks. -/
def emptyValue : BlockValue :=
  { rich_text := none, checked := none, title := none, type := none,
    external := none, file := none, caption := none, placeholder := none,
    size := none, language := none, url := none, icon := none,
    expression := none, table_width := none, has_column_header := none,
    has_row_header := none }

/-- When every row passes the shape check, the body keeps one row per
child. -/
theorem tableBodyRows_length (rows : List Block) (h : ∀ r ∈ rows, isTableRow r = true) :
    (tableBodyRows rows).length = rows.length := by
  induction rows with
  | nil => rfl
  | cons a l ih =>
    obtain ⟨c, hc⟩ := Option.isSome_iff_exists.mp
      (by simpa [isTableRow] using h a (List.mem_cons_self a l))
    simp only [tableBodyRows] at ih ⊢
    simp [List.filterMap_cons, hc, ih (fun r hr => h r (List.mem_cons_of_mem a hr))]

/-- Claim C1: a block whose type is none of the dispatch table's cases
renders, without faulting, the placeholder paragraph whose text carries
the literal type string in its parenthesis; for the exact type
`"unsupported"` the parenthesis instead carries the fixed string
`"unsupported by Notion API"` naming the source system rather than the
bare type string. -/
theorem unrecognized_type_placeholder
    (ty bid : String) (value : Option BlockValue) (vc : Option (List Block))
    (tr : Option (List (List RichTextItemResponse))) (bc : Option (List Block))
    (h : ty ∉ recognizedTypes) :
    NotionBlockRenderer (Block.mk ty bid value vc tr bc) = some (unsupportedFragment ty) ∧
    (ty ≠ "unsupported" →
      unsupportedFragment ty =
        Fragment.el "p" "text-red-600 dark:text-red-400"
          [Fragment.text ("❌ Unsupported block (" ++ ty ++ ")")]) ∧
    (unsupportedFragment "unsupported" =
      Fragment.el "p" "text-red-600 dark:text-red-400"
        [Fragment.text "❌ Unsupported block (unsupported by Notion API)"]) ∧
    "unsupported by Notion API" ≠ "unsupported" := by
  simp only [recognizedTypes, List.mem_cons, List.not_mem_nil, or_false, not_or] at h
  obtain ⟨h1, h2, h3, h4, h5, h6, h7, h8, h9, h10, h11,
          h12, h13, h14, h15, h16, h17, h18, h19, h20, h21, h22⟩ := h
  refine ⟨?_, ?_, rfl, by decide⟩
  · cases value <;> cases vc <;>
      simp [NotionBlockRenderer, h1, h2, h3, h4, h5, h6, h7, h8, h9, h10, h11,
            h12, h13, h14, h15, h16, h17, h18, h19, h20, h21, h22]
  · intro hne
    simp [unsupportedFragment, hne]

/-- Witness for C1 at the unrecognized type `"custom_embed"` and at the
sentinel `"unsupported"`. -/
theorem unrecognized_type_placeholder_witness :
    ("custom_embed" ∉ recognizedTypes) ∧ ("unsupported" ∉ recognizedTypes) ∧
    NotionBlockRenderer (Block.mk "custom_embed" "x1" none none none none) =
      some (unsupportedFragment "custom_embed") ∧
    NotionBlockRenderer (Block.mk "unsupported" "x2" none none none none) =
      some (unsupportedFragment "unsupported") ∧
    unsupportedFragment "unsupported" =
      Fragment.el "p" "text-red-600 dark:text-red-400"
        [Fragment.text "❌ Unsupported block (unsupported by Notion API)"] :=
  ⟨by decide, by decide,
   (unrecognized_type_placeholder "custom_embed" "x1" none none none none (by decide)).1,
   (unrecognized_type_placeholder "unsupported" "x2" none none none none (by decide)).1,
   (unrecognized_type_placeholder "unsupported" "x2" none none none none (by decide)).2.2.1⟩

/-- Claim C2: with `has_column_header` true and a first child carrying a
row payload, the header cells are exactly the first row's cells (each
cell rendered through the rich text renderer), the first child is
dropped from the body, and the remaining row-shaped children become the
body rows in input order (one body row per child when all pass the shape
check). -/
theorem table_column_header_rows
    (v : BlockValue) (bid : String) (tr : Option (List (List RichTextItemResponse)))
    (bc : Option (List Block)) (c0 : Block) (rest : List Block)
    (cells0 : List (List RichTextItemResponse))
    (hch : v.has_column_header = some true)
    (hc0 : Block.tableRow c0 = some cells0) :
    NotionBlockRenderer (Block.mk "table" bid (some v) (some (c0 :: rest)) tr bc) =
      some (tableFragment (some (cells0.map renderRichTextList)) (tableBodyRows rest)) ∧
    tableBodyRows rest =
      rest.filterMap (fun r => (Block.tableRow r).map (fun cells => cells.map renderRichTextList)) ∧
    ((∀ r ∈ rest, isTableRow r = true) → (tableBodyRows rest).length = rest.length) := by
  refine ⟨?_, rfl, fun hall => tableBodyRows_length rest hall⟩
  simp [NotionBlockRenderer, tableCase, hch, hc0]

/-- Sample rows for the C2 witness: three row children, two cells in the
first. -/
def c2row0 : Block := Block.mk "table_row" "r0" none none (some [[], []]) none

/-- Second sample row for the C2 witness. -/
def c2row1 : Block := Block.mk "table_row" "r1" none none (some [[], []]) none

/-- Third sample row for the C2 witness. -/
def c2row2 : Block := Block.mk "table_row" "r2" none none (some [[], []]) none

/-- Sample table payload for the C2 witness. -/
def c2value : BlockValue :=
  { emptyValue with
    has_column_header := some true
    has_row_header := some false
    table_width := some 2 }

/-- Witness for C2: 3 row children with `has_column_header` true and 2
cells in the first row give exactly 2 header cells and exactly 2 body
rows, in order. -/
theorem table_column_header_rows_witness :
    (c2value.has_column_header = some true) ∧
    (Block.tableRow c2row0 = some [[], []]) ∧
    NotionBlockRenderer (Block.mk "table" "t0" (some c2value) (some [c2row0, c2row1, c2row2]) none none) =
      some (tableFragment (some (([[], []] : List (List RichTextItemResponse)).map renderRichTextList))
        (tableBodyRows [c2row1, c2row2])) ∧
    (([[], []] : List (List RichTextItemResponse)).map renderRichTextList).length = 2 ∧
    (tableBodyRows [c2row1, c2row2]).length = 2 :=
  ⟨rfl, rfl,
   (table_column_header_rows c2value "t0" none none c2row0 [c2row1, c2row2] [[], []] rfl rfl).1,
   rfl, rfl⟩

/-- A first table child with no `table_row` payload, for the C3
counterexample. -/
def c3bad : Block := Block.mk "paragraph" "p0" none none none none

/-- A well-shaped row for the C3 counterexample. -/
def c3row : Block := Block.mk "table_row" "r0" none none (some [[]]) none

/-- A table payload with `has_column_header` true for the C3
counterexample. -/
def c3value : BlockValue := { emptyValue with has_column_header := some true }

/-- Counterexample to C3: a child failing the row shape check placed
first while `has_column_header` is true makes the table rendering fault
(the unguarded `children[0].table_row.cells` read), so such a child is
not merely skipped. -/
theorem table_nonrow_first_child_faults :
    isTableRow c3bad = false ∧
    NotionBlockRenderer (Block.mk "table" "t3" (some c3value) (some [c3bad, c3row]) none none) = none := by
  constructor
  · rfl
  · simp [NotionBlockRenderer, tableCase, c3value, c3bad, emptyValue, Block.tableRow]

/-- Claim C3 as amended: children failing the row shape check are skipped
without fault anywhere in the body slice (all positions when
`has_column_header` is not true, and every position after the first when
it is true, provided the first child itself carries a row payload); but a
first child lacking the row payload while `has_column_header` is true
faults the table rendering. -/
theorem table_row_shape_check (v : BlockValue) (bid : String)
    (tr : Option (List (List RichTextItemResponse))) (bc : Option (List Block))
    (cs : List Block) :
    (v.has_column_header ≠ some true →
      NotionBlockRenderer (Block.mk "table" bid (some v) (some cs) tr bc) =
        some (tableFragment none (tableBodyRows cs))) ∧
    (∀ c0 rest cells0, v.has_column_header = some true → cs = c0 :: rest →
      Block.tableRow c0 = some cells0 →
      NotionBlockRenderer (Block.mk "table" bid (some v) (some cs) tr bc) =
        some (tableFragment (some (cells0.map renderRichTextList)) (tableBodyRows rest))) ∧
    (∀ pre post r, isTableRow r = false →
      tableBodyRows (pre ++ r :: post) = tableBodyRows (pre ++ post)) := by
  refine ⟨?_, ?_, ?_⟩
  · intro h
    simp [NotionBlockRenderer, tableCase, h]
  · rintro c0 rest cells0 hch rfl hc0
    simp [NotionBlockRenderer, tableCase, hch, hc0]
  · intro pre post r hr
    have hnone : Block.tableRow r = none := by
      cases htr : Block.tableRow r with
      | none => rfl
      | some c => simp [isTableRow, htr] at hr
    simp [tableBodyRows, List.filterMap_append, List.filterMap_cons, hnone]

/-- Witness for C3 as amended: in a header-less table a non-row child is
skipped and the rendering succeeds. -/
theorem table_row_shape_check_witness :
    (emptyValue.has_column_header ≠ some true) ∧
    NotionBlockRenderer (Block.mk "table" "t4" (some emptyValue) (some [c3bad, c3row]) none none) =
      some (tableFragment none (tableBodyRows [c3bad, c3row])) ∧
    isTableRow c3bad = false ∧
    tableBodyRows [c3bad, c3row] = tableBodyRows [c3row] :=
  ⟨by decide,
   (table_row_shape_check emptyValue "t4" none none [c3bad, c3row]).1 (by decide),
   rfl,
   by simpa using
     (table_row_shape_check emptyValue "t4" none none [c3bad, c3row]).2.2 [] [c3row] c3bad rfl⟩

/-- A linked run for the C4 counterexample and witness. -/
def c4run : RichTextItemResponse :=
  { type := "text"
    text := some { content := "site", link := some "https://example.com" }
    equation := none
    annots := { bold := false, italic := false, strikethrough := false,
                underline := false, code := false, color := "default" }
    plain_text := "site"
    href := some "https://example.com" }

/-- A link-free run for the C4 witness. -/
def c4runNoLink : RichTextItemResponse :=
  { type := "text"
    text := some { content := "plain", link := none }
    equation := none
    annots := { bold := false, italic := false, strikethrough := false,
                underline := false, code := false, color := "default" }
    plain_text := "plain"
    href := none }

/-- Counterexample to C4: the link emitted for a hyperlinked run carries
neither a `rel` nor a `target` attribute, so it is not protected against
referrer/opener leakage. -/
theorem inline_link_lacks_protective_attrs :
    (renderRichTextItem 0 c4run).link.map Anchor.rel = some none ∧
    (renderRichTextItem 0 c4run).link.map Anchor.target = some none := by decide

/-- Claim C4 as amended: a run carrying a non-empty hyperlink is wrapped
in a plain link fragment holding only the href and the blue className —
without protective `rel`/`target` attributes — and a run without a
hyperlink gets no link wrapper. -/
theorem inline_link_wrapper (i : Nat) (item : RichTextItemResponse) :
    (∀ h, item.href = some h → h ≠ "" →
      (renderRichTextItem i item).link =
        some { href := some h, target := none, rel := none, className := notionLinkClass }) ∧
    (item.href = none → (renderRichTextItem i item).link = none) := by
  constructor
  · intro h hh hne
    simp [renderRichTextItem, hh, hne]
  · intro hn
    simp [renderRichTextItem, hn]

/-- Witness for C4 as amended at a concrete linked and link-free run. -/
theorem inline_link_wrapper_witness :
    (c4run.href = some "https://example.com") ∧
    (renderRichTextItem 0 c4run).link =
      some { href := some "https://example.com", target := none, rel := none,
             className := notionLinkClass } ∧
    (c4runNoLink.href = none) ∧
    (renderRichTextItem 0 c4runNoLink).link = none :=
  ⟨rfl, (inline_link_wrapper 0 c4run).1 "https://example.com" rfl (by decide),
   rfl, (inline_link_wrapper 0 c4runNoLink).2 rfl⟩

/-- Claim C5: the media source url is resolved by the payload's `type`
sub-discriminator — `"external"` reads only the external branch and
`"file"` reads only the file branch, whatever the other branch holds. -/
theorem media_url_resolution (p : BlockValue) :
    (p.type = some "external" → mediaSrc p = p.external) ∧
    (p.type = some "file" → mediaSrc p = p.file) := by
  constructor
  · intro h
    simp [mediaSrc, h]
  · intro h
    simp [mediaSrc, h]

/-- External payload for the C5 witness. -/
def c5ext : BlockValue :=
  { emptyValue with type := some "external", external := some "https://x", file := some "https://wrong" }

/-- Hosted-file payload for the C5 witness. -/
def c5file : BlockValue :=
  { emptyValue with type := some "file", file := some "https://y", external := some "https://wrong" }

/-- Witness for C5 on the spec's two example payloads. -/
theorem media_url_resolution_witness :
    (c5ext.type = some "external") ∧ mediaSrc c5ext = some "https://x" ∧
    (c5file.type = some "file") ∧ mediaSrc c5file = some "https://y" :=
  ⟨rfl, (media_url_resolution c5ext).1 rfl, rfl, (media_url_resolution c5file).2 rfl⟩

/-- Claim C6: the file block's displayed link text is the last `/`-path
segment of the resolved url with any `?` query stripped; on
`".../dir/report.pdf?sig=abc"` this is `"report.pdf"`. -/
theorem file_display_name_from_url (v : BlockValue) (bid : String)
    (vc : Option (List Block)) (tr : Option (List (List RichTextItemResponse)))
    (bc : Option (List Block)) (src : String) (h : mediaSrc v = some src) :
    (NotionBlockRenderer (Block.mk "file" bid (some v) vc tr bc)).bind fileLinkText =
      some (fileDisplayName src) ∧
    fileDisplayName "https://files.example.com/dir/report.pdf?sig=abc" = "report.pdf" := by
  constructor
  · cases hcap : strTruthy (captionOf v.caption) <;> cases vc <;>
      simp [NotionBlockRenderer, fileCase, h, hcap, fileLinkText]
  · rfl

/-- Payload for the C6 witness carrying the spec's example url. -/
def c6value : BlockValue :=
  { emptyValue with type := some "external",
                    external := some "https://files.example.com/dir/report.pdf?sig=abc" }

/-- Witness for C6 at the spec's example url. -/
theorem file_display_name_from_url_witness :
    (mediaSrc c6value = some "https://files.example.com/dir/report.pdf?sig=abc") ∧
    (NotionBlockRenderer (Block.mk "file" "f6" (some c6value) none none none)).bind fileLinkText =
      some (fileDisplayName "https://files.example.com/dir/report.pdf?sig=abc") ∧
    fileDisplayName "https://files.example.com/dir/report.pdf?sig=abc" = "report.pdf" :=
  ⟨rfl,
   (file_display_name_from_url c6value "f6" none none none
     "https://files.example.com/dir/report.pdf?sig=abc" rfl).1,
   (file_display_name_from_url c6value "f6" none none none
     "https://files.example.com/dir/report.pdf?sig=abc" rfl).2⟩

/-- Claim C7: each true boolean flag contributes its own independent
style trait, the color style is applied exactly when the run's color is
not the sentinel `"default"`, a bold default-color link-free run yields
one fragment with a bold trait, no color override and no link wrapper,
and a red run with a link yields one fragment whose color is red and
whose link wrapper carries the href. -/
theorem annotation_style_traits (i : Nat) (item : RichTextItemResponse) :
    ((renderRichTextItem i item).bold = item.annots.bold ∧
     (renderRichTextItem i item).code = item.annots.code ∧
     (renderRichTextItem i item).italic = item.annots.italic ∧
     (renderRichTextItem i item).strikethrough = item.annots.strikethrough ∧
     (renderRichTextItem i item).underline = item.annots.underline) ∧
    ((renderRichTextItem i item).color =
      if item.annots.color = "default" then none else some item.annots.color) ∧
    (item.href = none → item.annots.bold = true → item.annots.color = "default" →
      (renderRichTextItem i item).bold = true ∧ (renderRichTextItem i item).color = none ∧
      (renderRichTextItem i item).link = none) ∧
    (∀ h, item.href = some h → h ≠ "" → item.annots.color = "red" →
      (renderRichTextItem i item).color = some "red" ∧
      (renderRichTextItem i item).link =
        some { href := some h, target := none, rel := none, className := notionLinkClass }) := by
  refine ⟨⟨rfl, rfl, rfl, rfl, rfl⟩, ?_, ?_, ?_⟩
  · by_cases hc : item.annots.color = "default" <;> simp [renderRichTextItem, hc]
  · intro h1 h2 h3
    refine ⟨?_, ?_, ?_⟩ <;> simp [renderRichTextItem, h1, h2, h3]
  · intro h hh hne hc
    constructor <;> simp [renderRichTextItem, hh, hne, hc]

/-- A bold, default-color, link-free run for the C7 witness. -/
def c7boldRun : RichTextItemResponse :=
  { type := "text"
    text := some { content := "b", link := none }
    equation := none
    annots := { bold := true, italic := false, strikethrough := false,
                underline := false, code := false, color := "default" }
    plain_text := "b"
    href := none }

/-- A red run with a link for the C7 witness. -/
def c7redLinkRun : RichTextItemResponse :=
  { type := "text"
    text := some { content := "r", link := some "https://r.example" }
    equation := none
    annots := { bold := false, italic := false, strikethrough := false,
                underline := false, code := false, color := "red" }
    plain_text := "r"
    href := some "https://r.example" }

/-- Witness for C7 at the two spec example runs. -/
theorem annotation_style_traits_witness :
    ((renderRichTextItem 0 c7boldRun).bold = true ∧
     (renderRichTextItem 0 c7boldRun).color = none ∧
     (renderRichTextItem 0 c7boldRun).link = none) ∧
    ((renderRichTextItem 0 c7redLinkRun).color = some "red" ∧
     (renderRichTextItem 0 c7redLinkRun).link =
       some { href := some "https://r.example", target := none, rel := none,
              className := notionLinkClass }) :=
  ⟨(annotation_style_traits 0 c7boldRun).2.2.1 rfl rfl rfl,
   (annotation_style_traits 0 c7redLinkRun).2.2.2 "https://r.example" rfl (by decide) rfl⟩

/-- Claim C8: an absent input sequence renders to the absent result
`none`, distinct from the empty-fragment result of the empty sequence,
and neither faults. -/
theorem rich_text_absent_vs_empty :
    NotionText none = none ∧ NotionText (some []) = some [] ∧
    NotionText none ≠ NotionText (some []) := by decide

/-- Claim C9: absence of an optional payload field — caption (image,
file), children (list item, toggle, callout) or icon (callout) — never
faults; the corresponding optional fragment is omitted and the rest of
the block renders normally. -/
theorem optional_fields_omitted :
    (∀ (v : BlockValue) (bid : String) (vc : Option (List Block))
       (tr : Option (List (List RichTextItemResponse))) (bc : Option (List Block))
       (src : String) (sz : MediaSize),
      v.caption = none → mediaSrc v = some src → v.size = some sz →
      NotionBlockRenderer (Block.mk "image" bid (some v) vc tr bc) =
        some (Fragment.el "figure" "my-4"
          [Fragment.image (imageSrc src) (some "") v.placeholder sz.width sz.height
            "object-cover rounded-lg"])) ∧
    (∀ (v : BlockValue) (bid : String) (vc : Option (List Block))
       (tr : Option (List (List RichTextItemResponse))) (bc : Option (List Block))
       (src : String),
      v.caption = none → mediaSrc v = some src →
      NotionBlockRenderer (Block.mk "file" bid (some v) vc tr bc) =
        some (Fragment.el "figure" "my-4"
          [Fragment.el "div" "flex items-center space-x-2 text-gray-800 dark:text-gray-200"
            [Fragment.text "📎",
             Fragment.anchor { href := some src, target := none, rel := none,
                               className := "text-blue-600 hover:underline dark:text-blue-400" }
               [Fragment.text (fileDisplayName src)]]])) ∧
    (∀ (ty : String) (v : BlockValue) (bid : String)
       (tr : Option (List (List RichTextItemResponse))) (bc : Option (List Block)),
      ty = "bulleted_list_item" ∨ ty = "numbered_list_item" →
      NotionBlockRenderer (Block.mk ty bid (some v) none tr bc) =
        some (listItemFragment v [])) ∧
    (∀ (v : BlockValue) (bid : String)
       (tr : Option (List (List RichTextItemResponse))) (bc : Option (List Block)),
      NotionBlockRenderer (Block.mk "toggle" bid (some v) none tr bc) =
        some (toggleFragment v [])) ∧
    (∀ (v : BlockValue) (bid : String)
       (tr : Option (List (List RichTextItemResponse))) (bc : Option (List Block)),
      v.icon = none →
      NotionBlockRenderer (Block.mk "callout" bid (some v) none tr bc) =
        some (Fragment.el "div" "flex p-4 my-4 rounded-lg bg-gray-100 dark:bg-gray-800"
          [Fragment.el "div" "flex-grow text-gray-800 dark:text-gray-200"
            (ntFrag v.rich_text)])) := by
  refine ⟨?_, ?_, ?_, ?_, ?_⟩
  · intro v bid vc tr bc src sz hcap hsrc hsz
    cases vc <;> simp [NotionBlockRenderer, imageCase, hsrc, hsz, hcap, captionOf, strTruthy]
  · intro v bid vc tr bc src hcap hsrc
    cases vc <;> simp [NotionBlockRenderer, fileCase, hsrc, hcap, captionOf, strTruthy]
  · intro ty v bid tr bc hty
    rcases hty with rfl | rfl <;> simp [NotionBlockRenderer, renderOptChildren]
  · intro v bid tr bc
    simp [NotionBlockRenderer, renderOptChildren]
  · intro v bid tr bc hicon
    simp [NotionBlockRenderer, renderOptChildren, calloutFragment, hicon]

/-- Caption-free image payload for the C9 witness. -/
def c9imgV : BlockValue :=
  { emptyValue with
    type := some "external"
    external := some "https://img.example/pic.png"
    size := some { width := 10, height := 5 } }

/-- Caption-free file payload for the C9 witness. -/
def c9fileV : BlockValue :=
  { emptyValue with type := some "file", file := some "https://h.example/files/doc.txt" }

/-- Witness for C9 at concrete blocks missing each optional field. -/
theorem optional_fields_omitted_witness :
    (c9imgV.caption = none) ∧ (c9fileV.caption = none) ∧ (emptyValue.icon = none) ∧
    NotionBlockRenderer (Block.mk "image" "i9" (some c9imgV) none none none) =
      some (Fragment.el "figure" "my-4"
        [Fragment.image (imageSrc "https://img.example/pic.png") (some "") c9imgV.placeholder
          10 5 "object-cover rounded-lg"]) ∧
    NotionBlockRenderer (Block.mk "file" "f9" (some c9fileV) none none none) =
      some (Fragment.el "figure" "my-4"
        [Fragment.el "div" "flex items-center space-x-2 text-gray-800 dark:text-gray-200"
          [Fragment.text "📎",
           Fragment.anchor { href := some "https://h.example/files/doc.txt", target := none,
                             rel := none,
                             className := "text-blue-600 hover:underline dark:text-blue-400" }
             [Fragment.text (fileDisplayName "https://h.example/files/doc.txt")]]]) ∧
    NotionBlockRenderer (Block.mk "bulleted_list_item" "l9" (some emptyValue) none none none) =
      some (listItemFragment emptyValue []) ∧
    NotionBlockRenderer (Block.mk "toggle" "t9" (some emptyValue) none none none) =
      some (toggleFragment emptyValue []) ∧
    NotionBlockRenderer (Block.mk "callout" "c9" (some emptyValue) none none none) =
      some (Fragment.el "div" "flex p-4 my-4 rounded-lg bg-gray-100 dark:bg-gray-800"
        [Fragment.el "div" "flex-grow text-gray-800 dark:text-gray-200"
          (ntFrag emptyValue.rich_text)]) :=
  ⟨rfl, rfl, rfl,
   optional_fields_omitted.1 c9imgV "i9" none none none "https://img.example/pic.png"
     { width := 10, height := 5 } rfl rfl rfl,
   optional_fields_omitted.2.1 c9fileV "f9" none none none "https://h.example/files/doc.txt" rfl rfl,
   optional_fields_omitted.2.2.1 "bulleted_list_item" emptyValue "l9" none none (Or.inl rfl),
   optional_fields_omitted.2.2.2.1 emptyValue "t9" none none,
   optional_fields_omitted.2.2.2.2 emptyValue "c9" none none rfl⟩

/-- Claim C10: an image whose resolved source url is falsy (the empty
string) is rendered with the literal fallback `"/placeholder.svg"` as its
media source instead of the falsy url. -/
theorem image_placeholder_fallback (v : BlockValue) (bid : String)
    (vc : Option (List Block)) (tr : Option (List (List RichTextItemResponse)))
    (bc : Option (List Block)) (sz : MediaSize)
    (h : mediaSrc v = some "") (hsz : v.size = some sz) :
    (NotionBlockRenderer (Block.mk "image" bid (some v) vc tr bc)).bind imageSrcOfFragment =
      some "/placeholder.svg" ∧
    imageSrc "" = "/placeholder.svg" ∧
    (∀ s, s ≠ "" → imageSrc s = s) := by
  refine ⟨?_, rfl, ?_⟩
  · cases hcap : strTruthy (captionOf v.caption) <;> cases vc <;>
      simp [NotionBlockRenderer, imageCase, h, hsz, hcap, imageSrcOfFragment, imageSrc]
  · intro s hs
    simp [imageSrc, hs]

/-- Image payload with an empty resolved url for the C10 witness. -/
def c10value : BlockValue :=
  { emptyValue with
    type := some "external"
    external := some ""
    size := some { width := 3, height := 4 } }

/-- Witness for C10 at a concrete image block with an empty source url. -/
theorem image_placeholder_fallback_witness :
    (mediaSrc c10value = some "") ∧
    (NotionBlockRenderer (Block.mk "image" "i10" (some c10value) none none none)).bind
      imageSrcOfFragment = some "/placeholder.svg" :=
  ⟨rfl,
   (image_placeholder_fallback c10value "i10" none none none
     { width := 3, height := 4 } rfl rfl).1⟩
